import Mathlib

/-!
Verification of the chill_pm multi-venue strategy execution engine.

This file shallowly embeds the Rust modules `src/utils/parser.rs`,
`src/executor/binance.rs`, `src/executor/eisen.rs`, `src/processors.rs` and
the strategy-execution portion of `src/handlers.rs` into Lean, and proves or
refutes the frozen claims about them.

Modelling conventions:
- JSON values (serde_json::Value) are an inductive type; the strategy JSONs
  only use objects, arrays, strings and booleans.
- rust_decimal::Decimal is a pair of a 96-bit-bounded integer mantissa and a
  scale of at most 28.
- IEEE-754 binary64 (f64) values are modelled as their exact rational values;
  every f64 operation result is obtained with the round-to-nearest, ties-to-even
  rounding function fl below.  Overflow to infinity and subnormal underflow do
  not occur at any value considered here and are not modelled.
- Network effects (HTTP submission, on-chain broadcast) are oracles passed in
  as functions; each call made to an oracle is recorded in a trace, so the
  theorems can speak about which items were actually submitted.
- A Rust panic (Option::unwrap on None, HashMap index with a missing key,
  U256::from_str_radix(..).unwrap on a malformed string) is modelled as a
  distinguished error value that propagates like an error.
-/

namespace ChillPm

/-- Decidable equality for Except values, used to evaluate concrete traces. -/
instance exceptDecEq {ε α : Type} [DecidableEq ε] [DecidableEq α] :
    DecidableEq (Except ε α)
  | .ok a, .ok b =>
      if h : a = b then isTrue (by rw [h]) else isFalse (by simp [h])
  | .ok _, .error _ => isFalse (by simp)
  | .error _, .ok _ => isFalse (by simp)
  | .error e, .error f =>
      if h : e = f then isTrue (by rw [h]) else isFalse (by simp [h])

/-! ## JSON model (serde_json::Value restricted to the shapes used) -/

inductive Json where
  | null : Json
  | bool (b : Bool) : Json
  | num (n : Int) : Json
  | str (s : String) : Json
  | arr (elems : List Json) : Json
  | obj (fields : List (String × Json)) : Json
deriving Repr

/-- Value::get(key) on objects: first binding of the key, none otherwise. -/
def Json.get? (j : Json) (key : String) : Option Json :=
  match j with
  | .obj fields => (fields.find? (fun kv => kv.1 == key)).map (fun kv => kv.2)
  | _ => none

/-- Value::as_str. -/
def Json.asStr : Json → Option String
  | .str s => some s
  | _ => none

/-- Value::as_array. -/
def Json.asArr : Json → Option (List Json)
  | .arr elems => some elems
  | _ => none

/-- Value::as_bool. -/
def Json.asBool : Json → Option Bool
  | .bool b => some b
  | _ => none

/-! ## ASCII case mapping

Rust str::to_uppercase / to_lowercase are Unicode-aware; every string these
programs case-map (token symbols, order sides) is ASCII, where the mappings
below agree with Rust. -/

def asciiUpper (c : Char) : Char :=
  if 'a' ≤ c ∧ c ≤ 'z' then Char.ofNat (c.toNat - 32) else c

def asciiLower (c : Char) : Char :=
  if 'A' ≤ c ∧ c ≤ 'Z' then Char.ofNat (c.toNat + 32) else c

def strUpper (s : String) : String := String.mk (s.data.map asciiUpper)

def strLower (s : String) : String := String.mk (s.data.map asciiLower)

/-! ## Decimal-string parsing

Shared between the rust_decimal parser and the f64 parser: an optional sign,
then digits with at most one decimal point and at least one digit.
(Exponent notation, underscore separators and the special float spellings
inf/NaN never appear in the strategy inputs and are not modelled; on all
inputs appearing below this parser agrees with Rust.) -/

def decDigitsAux : List Char → Nat → Nat → Bool → Bool → Option (Nat × Nat)
  | [], acc, scale, sawDigit, _sawDot =>
      if sawDigit then some (acc, scale) else none
  | c :: cs, acc, scale, sawDigit, sawDot =>
      if c = '.' then
        if sawDot then none else decDigitsAux cs acc scale sawDigit true
      else if c.isDigit then
        decDigitsAux cs (10 * acc + (c.toNat - 48))
          (if sawDot then scale + 1 else scale) true sawDot
      else none

/-- Parse a signed plain decimal string into (integer mantissa, scale),
so that the value is mantissa / 10 ^ scale. -/
def parseSignedDecString (s : String) : Option (Int × Nat) :=
  match s.data with
  | [] => none
  | c :: cs =>
      if c = '-' then
        (decDigitsAux cs 0 0 false false).map (fun p => (-(p.1 : Int), p.2))
      else if c = '+' then
        (decDigitsAux cs 0 0 false false).map (fun p => ((p.1 : Int), p.2))
      else
        (decDigitsAux (c :: cs) 0 0 false false).map (fun p => ((p.1 : Int), p.2))

/-! ## rust_decimal::Decimal -/

/-- rust_decimal::Decimal: value is mantissa / 10 ^ scale, with the mantissa
bounded by 2^96 in absolute value and the scale by 28. -/
structure Decimal where
  mantissa : Int
  scale : Nat
deriving Repr, DecidableEq

/-- rust_decimal::Decimal::from_str_exact: exact parse, rejecting scales above
28 and mantissas of 96 bits or more. -/
def Decimal.fromStrExact (s : String) : Option Decimal :=
  (parseSignedDecString s).bind (fun p =>
    if p.2 ≤ 28 ∧ p.1.natAbs < 2 ^ 96 then some ⟨p.1, p.2⟩ else none)

/-! ## Exact model of IEEE-754 binary64 values

A finite binary64 value is a dyadic rational m * 2 ^ e.  F64 carries that
pair, kept in the normal form (2^52 ≤ |m| < 2^53, or m = e = 0 for zero), so
that structural equality coincides with value equality.  Rounding is
round-to-nearest, ties-to-even.  Exponent overflow and subnormal underflow do
not occur at any value considered in this development and are not modelled,
and signed zeros are not distinguished (no input below produces -0.0). -/

structure F64 where
  m : Int
  e : Int
deriving Repr, DecidableEq

/-- The real value of an F64, used in specification statements only. -/
def F64.toRat (x : F64) : ℚ := (x.m : ℚ) * (2 : ℚ) ^ x.e

def F64.zero : F64 := ⟨0, 0⟩

/-- Number of binary digits of n (0 for 0), via an explicit fuel so that the
kernel can evaluate it. -/
def bitlenAux : Nat → Nat → Nat
  | 0, _ => 0
  | fuel + 1, n => if n = 0 then 0 else bitlenAux fuel (n / 2) + 1

def bitlen (n : Nat) : Nat := bitlenAux n n

/-- Round num / den (den > 0) to the nearest integer, ties to even. -/
def roundHalfEven (num den : Nat) : Nat :=
  let q := num / den
  let r := num % den
  if 2 * r < den then q
  else if den < 2 * r then q + 1
  else if q % 2 = 0 then q else q + 1

/-- Round the positive rational n / d (n, d ≥ 1) to the nearest binary64
value. -/
def flPos (n d : Nat) : F64 :=
  let e0 : Int := (bitlen n : Int) - (bitlen d : Int) - 53
  let num0 := n * 2 ^ (Int.toNat (-e0))
  let den0 := d * 2 ^ (Int.toNat e0)
  -- num0 / den0 = (n / d) / 2 ^ e0 lies in (2 ^ 52, 2 ^ 54)
  let t := if den0 * 2 ^ 53 ≤ num0 then (num0, den0 * 2, e0 + 1) else (num0, den0, e0)
  let m := roundHalfEven t.1 t.2.1
  if m = 2 ^ 53 then ⟨2 ^ 52, t.2.2 + 1⟩ else ⟨(m : Int), t.2.2⟩

/-- Round the rational mant / den (den ≥ 1) to the nearest binary64 value. -/
def flRat (mant : Int) (den : Nat) : F64 :=
  if mant = 0 then F64.zero
  else if 0 < mant then flPos mant.natAbs den
  else
    let p := flPos mant.natAbs den
    ⟨-p.m, p.e⟩

/-- str::parse::<f64>(): correctly rounded decimal-to-binary conversion. -/
def parseF64 (s : String) : Option F64 :=
  (parseSignedDecString s).map (fun p => flRat p.1 (10 ^ p.2))

/-- f64 multiplication: exact product, rounded. -/
def F64.mul (a b : F64) : F64 :=
  if a.m = 0 ∨ b.m = 0 then F64.zero
  else
    let M := a.m * b.m
    let E := a.e + b.e
    let n := if 0 ≤ E then M.natAbs * 2 ^ E.toNat else M.natAbs
    let d := if 0 ≤ E then 1 else 2 ^ (-E).toNat
    if 0 < M then flPos n d
    else
      let p := flPos n d
      ⟨-p.m, p.e⟩

/-- 10.0_f64.powi(d): exactly 10 ^ d for d ≤ 22 (every intermediate power in
the binary-exponentiation computation is exactly representable there), and
the correctly rounded value in general; every decimals count in this
development is at most 18. -/
def f64pow10 (d : Nat) : F64 := flRat ((10 : Int) ^ d) 1

/-- f64 floor followed by exact decimal rendering: the floor of a binary64
value is always exactly representable, and Display prints integer-valued
binary64 values as their exact integer, so the composition used in
quote_and_send_tx (floor, to_string, U256::from_str_radix) carries exactly
this integer. -/
def F64.floorInt (x : F64) : Int :=
  if 0 ≤ x.e then x.m * 2 ^ x.e.toNat else x.m.fdiv (2 ^ (-x.e).toNat)

/-! ## src/executor/binance.rs: order types and request construction -/

inductive OrderSide where
  | buy : OrderSide
  | sell : OrderSide
deriving Repr, DecidableEq

inductive OrderType where
  | market : OrderType
  | limit : OrderType
  | stop : OrderType
  | takeProfit : OrderType
  | stopMarket : OrderType
  | takeProfitMarket : OrderType
  | trailingStopMarket : OrderType
  | limitMaker : OrderType
deriving Repr, DecidableEq

inductive TimeInForce where
  | gtc : TimeInForce
  | ioc : TimeInForce
  | fok : TimeInForce
  | gtx : TimeInForce
deriving Repr, DecidableEq

inductive PositionSide where
  | long : PositionSide
  | short : PositionSide
  | both : PositionSide
deriving Repr, DecidableEq

/-- The PlaceOrder parameter struct of src/executor/binance.rs, in its
declaration field order. -/
structure PlaceOrder where
  symbol : String
  side : OrderSide
  position_side : Option PositionSide
  order_type : OrderType
  reduce_only : Option Bool
  quantity : Option Decimal
  price : Option Decimal
  new_client_order_id : Option String
  stop_price : Option Decimal
  close_position : Option Bool
  activation_price : Option Decimal
  callback_rate : Option Decimal
  time_in_force : Option TimeInForce
  working_type : Option String
  price_protect : Option String
deriving Repr, DecidableEq

/-- The order-kind selection at the head of place_binance_order
(src/executor/binance.rs lines 281-287): a pure function of the two optional
price fields, yielding (order type, time in force, close_position). -/
def orderKindSelection (price stop_price : Option Decimal) :
    OrderType × Option TimeInForce × Option Bool :=
  if price.isSome then (.limit, some .gtc, some false)
  else if stop_price.isSome then (.stopMarket, none, some true)
  else (.market, none, some false)

/-- The request place_binance_order builds and signs (src/executor/binance.rs
lines 281-305): the symbol is uppercased and suffixed with "USDT", the order
kind comes from orderKindSelection, all other optional fields are None. -/
def placeBinanceOrderRequest (symbol : String) (side : OrderSide)
    (quantity price stop_price : Option Decimal) : PlaceOrder :=
  let k := orderKindSelection price stop_price
  { symbol := strUpper symbol ++ "USDT"
    side := side
    position_side := none
    order_type := k.1
    reduce_only := none
    quantity := quantity
    price := price
    new_client_order_id := none
    stop_price := stop_price
    close_position := k.2.2
    activation_price := none
    callback_rate := none
    time_in_force := k.2.1
    working_type := none
    price_protect := none }

/-! ## src/utils/parser.rs: extract_binance_place_order -/

/-- One iteration of the order-extraction loop (src/utils/parser.rs lines
82-163): none encodes the `continue` taken on an invalid side. -/
def parseBinanceOrderItem (order : Json) : Option PlaceOrder :=
  let symbol := ((order.get? "token").bind Json.asStr).getD "" ++ "USDT"
  let sideStr := strUpper (((order.get? "side").bind Json.asStr).getD "")
  let sideOpt : Option OrderSide :=
    if sideStr = "BUY" then some .buy
    else if sideStr = "SELL" then some .sell
    else none
  match sideOpt with
  | none => none
  | some side =>
      let orderTypeStr := strUpper (((order.get? "type").bind Json.asStr).getD "MARKET")
      let order_type : OrderType :=
        if orderTypeStr = "MARKET" then .market
        else if orderTypeStr = "LIMIT" then .limit
        else .market
      let quantity := ((order.get? "amount").bind Json.asStr).bind Decimal.fromStrExact
      let price := ((order.get? "price").bind Json.asStr).bind Decimal.fromStrExact
      let time_in_force := ((order.get? "timeInForce").bind Json.asStr).map (fun t =>
        let u := strUpper t
        if u = "GTC" then TimeInForce.gtc
        else if u = "IOC" then TimeInForce.ioc
        else if u = "FOK" then TimeInForce.fok
        else if u = "GTX" then TimeInForce.gtx
        else TimeInForce.gtc)
      let reduce_only := (order.get? "reduceOnly").bind Json.asBool
      let close_position := (order.get? "closePosition").bind Json.asBool
      some
        { symbol := symbol
          side := side
          position_side := none
          order_type := order_type
          reduce_only := reduce_only
          quantity := quantity
          price := price
          new_client_order_id := none
          stop_price := none
          close_position := close_position
          activation_price := none
          callback_rate := none
          time_in_force := time_in_force
          working_type := none
          price_protect := none }

/-- src/utils/parser.rs extract_binance_place_order: walk the exchanges array,
collecting the parsed orders of every exchange entry with a binance order
list. -/
def extract_binance_place_order (json : Json) : List PlaceOrder :=
  match (json.get? "exchanges").bind Json.asArr with
  | none => []
  | some exchanges =>
      exchanges.flatMap (fun exchange =>
        match exchange.get? "binance" with
        | none => []
        | some b =>
            match (b.get? "orders").bind Json.asArr with
            | none => []
            | some orders => orders.filterMap parseBinanceOrderItem)

/-! ## src/processors.rs: process_binance_place_order

place_binance_order performs signing and an HTTP POST; everything from the
signing on is abstracted as a submission oracle from the built request to an
outcome.  The loop in process_binance_place_order propagates the first error
with the ? operator, so later items are not attempted; the returned trace
records, in order, each request actually submitted together with its
outcome. -/

inductive ExecError where
  | venue (msg : String) : ExecError
  | network (msg : String) : ExecError
  | invalidInput (msg : String) : ExecError
  | panicked (msg : String) : ExecError
deriving Repr, DecidableEq

def binanceLoop (submit : PlaceOrder → Except ExecError Unit) :
    List PlaceOrder → List (PlaceOrder × Except ExecError Unit) × Except ExecError Unit
  | [] => ([], .ok ())
  | p :: rest =>
      let req := placeBinanceOrderRequest p.symbol p.side p.quantity p.price none
      match submit req with
      | .error e => ([(req, .error e)], .error e)
      | .ok _ =>
          let t := binanceLoop submit rest
          ((req, .ok ()) :: t.1, t.2)

/-- src/processors.rs process_binance_place_order: extract the orders, then
submit each in turn, forwarding the struct symbol field, side, quantity and
price, and None for the stop price; the first failing submission aborts the
loop. -/
def process_binance_place_order (submit : PlaceOrder → Except ExecError Unit)
    (json : Json) :
    List (PlaceOrder × Except ExecError Unit) × Except ExecError Unit :=
  binanceLoop submit (extract_binance_place_order json)

/-! ## src/utils/parser.rs: extract_eisen_swaps -/

/-- The EisenSwap struct of src/utils/parser.rs; the amount field is an f64.
-/
structure EisenSwap where
  token_in : String
  token_out : String
  amount : F64
deriving Repr, DecidableEq

/-- One iteration of the swap-extraction loop (src/utils/parser.rs lines
29-43): all three fields must be JSON strings; the amount string is parsed as
an f64 with unwrap_or(0.0). -/
def parseEisenSwapItem (swap : Json) : Option EisenSwap :=
  match (swap.get? "token_in").bind Json.asStr,
        (swap.get? "token_out").bind Json.asStr,
        (swap.get? "amount").bind Json.asStr with
  | some tIn, some tOut, some amt =>
      some { token_in := tIn, token_out := tOut, amount := (parseF64 amt).getD F64.zero }
  | _, _, _ => none

/-- src/utils/parser.rs extract_eisen_swaps. -/
def extract_eisen_swaps (json : Json) : List EisenSwap :=
  match (json.get? "exchanges").bind Json.asArr with
  | none => []
  | some exchanges =>
      exchanges.flatMap (fun exchange =>
        match exchange.get? "eisen" with
        | none => []
        | some eisen =>
            match (eisen.get? "swaps").bind Json.asArr with
            | none => []
            | some swapsArr => swapsArr.filterMap parseEisenSwapItem)

/-! ## src/executor/eisen.rs: chain metadata and the swap pipeline -/

/-- ChainData of src/executor/eisen.rs; the two HashMaps are association
lists (only keyed lookup is used).  Keys are stored lowercased, as
get_chain_metadata lowercases every symbol and address. -/
structure ChainData where
  id : Nat
  name : String
  sym_to_addr_n_decimals : List (String × String × Nat)
  addr_to_sym : List (String × String)
deriving Repr

/-- HashMap keyed lookup; indexing with a missing key panics in Rust, which
the caller below maps to a panicked error. -/
def ChainData.symLookup (cd : ChainData) (sym : String) : Option (String × Nat) :=
  (cd.sym_to_addr_n_decimals.find? (fun kv => kv.1 == sym)).map (fun kv => kv.2)

/-- The quote request body built by get_quote (src/executor/eisen.rs lines
281-291), with the amount already rendered in base units. -/
structure QuoteRequestBody where
  token_in_addr : String
  token_out_addr : String
  amount : Nat
  max_split : String
  max_edge : String
  with_cycle : Bool
deriving Repr, DecidableEq

/-- AggregateMergeSwapInfo of src/executor/eisen.rs: the routing graph a
quote carries. -/
structure AggregateMergeSwapInfo where
  block_number : Nat
  from_token : String
  amount_in : String
  to_token : String
  weights : List Nat
  expected_amount_out : String
deriving Repr, DecidableEq

/-- QuoteResult of src/executor/eisen.rs lines 76-80: the path-existence flag
and the optional routing graph. -/
structure QuoteResult where
  is_swap_path_exists : Bool
  dex_agg : Option AggregateMergeSwapInfo
deriving Repr, DecidableEq

/-- The build request body of get_tx_data (src/executor/eisen.rs lines
325-332). -/
structure BuildRequestBody where
  fromAddr : String
  slippage_bps : Nat
  dex_agg : AggregateMergeSwapInfo
deriving Repr, DecidableEq

/-- Transaction of src/executor/eisen.rs: destination, value and call data of
a built transaction. -/
structure EisenTx where
  toAddr : String
  value : Nat
  data : String
deriving Repr, DecidableEq

/-- The network stages of the swap pipeline, in the order quote_and_send_tx
invokes them. -/
inductive EisenStage where
  | quoteStage : EisenStage
  | buildStage : EisenStage
  | sendStage : EisenStage
deriving Repr, DecidableEq

/-- The three network oracles of the swap pipeline (HTTP quote, HTTP build,
on-chain broadcast-and-watch), plus the chain id the provider reports. -/
structure EisenEnv where
  chainId : Nat
  quoteOracle : QuoteRequestBody → Except ExecError QuoteResult
  buildOracle : BuildRequestBody → Except ExecError EisenTx
  sendOracle : EisenTx → Except ExecError Nat

/-- Stage 1 of the pipeline as the source computes it (src/executor/eisen.rs
lines 383-389): f64 multiply by 10.0.powi(decimals), f64 floor, then render
and reparse the integer through U256::from_str_radix.  The result is in base
units. -/
def f64ToBaseUnits (amount : F64) (decimals : Nat) : Int :=
  (amount.mul (f64pow10 decimals)).floorInt

/-- U256::from_str_radix(s, 10).unwrap() applied to the rendered floor value:
none (a panic at the call site) for a negative value or one of 256 bits or
more. -/
def u256OfFloor (v : Int) : Option Nat :=
  if 0 ≤ v ∧ v < 2 ^ 256 then some v.toNat else none

/-- src/executor/eisen.rs quote_and_send_tx: resolve both token symbols
(HashMap indexing panics on a missing symbol), convert the amount to base
units, then quote, build and broadcast in order, propagating the first error.
The unwrap of quote.result.dex_agg panics when the aggregator returns no
route.  Returns the network stages invoked and the outcome. -/
def quote_and_send_tx (env : EisenEnv) (chain_data : ChainData)
    (from_token to_token : String) (amount : F64) (wallet_addr : String)
    (slippage_bps : Nat) : List EisenStage × Except ExecError Nat :=
  match chain_data.symLookup (strLower from_token) with
  | none => ([], .error (.panicked "no entry found for key"))
  | some src =>
      match chain_data.symLookup (strLower to_token) with
      | none => ([], .error (.panicked "no entry found for key"))
      | some _dst =>
          match u256OfFloor (f64ToBaseUnits amount src.2) with
          | none => ([], .error (.panicked "U256 from_str_radix unwrap"))
          | some amount_in =>
              let qbody : QuoteRequestBody :=
                { token_in_addr := src.1
                  token_out_addr := _dst.1
                  amount := amount_in
                  max_split := "10"
                  max_edge := "3"
                  with_cycle := false }
              match env.quoteOracle qbody with
              | .error e => ([.quoteStage], .error e)
              | .ok qr =>
                  match qr.dex_agg with
                  | none =>
                      ([.quoteStage], .error (.panicked "Option unwrap on None"))
                  | some agg =>
                      let bbody : BuildRequestBody :=
                        { fromAddr := wallet_addr
                          slippage_bps := slippage_bps
                          dex_agg := agg }
                      match env.buildOracle bbody with
                      | .error e => ([.quoteStage, .buildStage], .error e)
                      | .ok tx =>
                          match env.sendOracle tx with
                          | .error e =>
                              ([.quoteStage, .buildStage, .sendStage], .error e)
                          | .ok h =>
                              ([.quoteStage, .buildStage, .sendStage], .ok h)

/-! ## src/processors.rs: process_eisen_swaps -/

/-- The per-swap loop of process_eisen_swaps: each swap runs the full
pipeline with the default slippage of 100 bps; the ? operator propagates the
first error, so later swaps are not attempted.  The trace records each
attempted swap with its stage trace and outcome. -/
def eisenLoop (env : EisenEnv) (chain_data : ChainData) (wallet_addr : String) :
    List EisenSwap →
      List (EisenSwap × List EisenStage × Except ExecError Nat) × Except ExecError Unit
  | [] => ([], .ok ())
  | s :: rest =>
      let r := quote_and_send_tx env chain_data s.token_in s.token_out s.amount
        wallet_addr 100
      match r.2 with
      | .error e => ([(s, r.1, .error e)], .error e)
      | .ok h =>
          let t := eisenLoop env chain_data wallet_addr rest
          ((s, r.1, .ok h) :: t.1, t.2)

/-- src/processors.rs process_eisen_swaps. -/
def process_eisen_swaps (env : EisenEnv) (chain_data : ChainData)
    (wallet_addr : String) (json : Json) :
    List (EisenSwap × List EisenStage × Except ExecError Nat) × Except ExecError Unit :=
  eisenLoop env chain_data wallet_addr (extract_eisen_swaps json)

/-! ## src/handlers.rs: the strategy-execution step of the execute handler

handlers.rs lines 281-314: process_binance_place_order runs first and its
result is matched and logged only; process_eisen_swaps then runs
unconditionally.  Neither leg result aborts the other. -/

def execute_strategy (submit : PlaceOrder → Except ExecError Unit)
    (env : EisenEnv) (chain_data : ChainData) (wallet_addr : String)
    (json : Json) :
    (List (PlaceOrder × Except ExecError Unit) × Except ExecError Unit) ×
      (List (EisenSwap × List EisenStage × Except ExecError Nat) × Except ExecError Unit) :=
  (process_binance_place_order submit json,
   process_eisen_swaps env chain_data wallet_addr json)

/-! ## Request signer

Modelled from the spec: the module utils/sign.rs (BinanceKey and its sign
method) is referenced by src/executor/binance.rs and src/processors.rs but is
absent from the source tree.  Following section 4.2 of the spec, the signer
serializes the ordered parameters into a canonical key=value query string
joined with ampersands in a fixed order, and computes an HMAC-SHA256
signature of that string with the secret key, rendered as lowercase hex.
SHA-256 below is the full FIPS 180-4 compression function and padding.
Strings are taken as byte lists through their code points, which agrees with
UTF-8 on the ASCII parameter strings involved. -/

def wordMask : Nat := 2 ^ 32

/-- 32-bit right rotation. -/
def rotr (n x : Nat) : Nat := ((x >>> n) ||| (x <<< (32 - n))) % wordMask

def shaCh (e f g : Nat) : Nat := (e &&& f) ^^^ ((e ^^^ (wordMask - 1)) &&& g)

def shaMaj (a b c : Nat) : Nat := (a &&& b) ^^^ (a &&& c) ^^^ (b &&& c)

def sigma0 (x : Nat) : Nat := rotr 7 x ^^^ rotr 18 x ^^^ (x >>> 3)

def sigma1 (x : Nat) : Nat := rotr 17 x ^^^ rotr 19 x ^^^ (x >>> 10)

def bigSigma0 (x : Nat) : Nat := rotr 2 x ^^^ rotr 13 x ^^^ rotr 22 x

def bigSigma1 (x : Nat) : Nat := rotr 6 x ^^^ rotr 11 x ^^^ rotr 25 x

/-- The 64 FIPS 180-4 round constants packed big-endian into one integer
(word i is bits 32*(63-i) .. 32*(63-i)+31). -/
def shaKPacked : Nat :=
  8399870144517823301722239222130927227141849779511242471197906795369846673996008864786532278482947930035050432913372875699354429524650716672308175015812472005008943341011247634627600705591103756174659437448007297240981034636327441933849465611186184660803773840414514428031635770391245199770927811112653141372483794982516161135727373084047811483050876080270389320947077305721183235613169389468744126235534648516788175255292025668825020963291224099932572215580391753777671218957634024159536228058522778003881673030597872562207069818177476920296259993961459554031943090626293016819766823808480230688357231269177224952050

/-- The 64 SHA-256 round constants. -/
def shaK : List Nat :=
  (List.range 64).map (fun i => (shaKPacked >>> (32 * (63 - i))) % wordMask)

/-- The 8 FIPS 180-4 initial hash words packed big-endian into one integer. -/
def shaH0Packed : Nat :=
  47962653771679561900652889051773562940742041696833059450490514104358170316057

/-- The SHA-256 initial hash state. -/
def shaH0 : List Nat :=
  (List.range 8).map (fun i => (shaH0Packed >>> (32 * (7 - i))) % wordMask)

/-- Big-endian byte rendering of n on k bytes. -/
def beBytes (k n : Nat) : List Nat :=
  (List.range k).map (fun i => (n >>> (8 * (k - 1 - i))) % 256)

/-- SHA-256 message padding: append 0x80, zeros to 56 mod 64 bytes, then the
bit length on 8 big-endian bytes. -/
def sha256Pad (msg : List Nat) : List Nat :=
  let L := msg.length
  msg ++ [0x80] ++ List.replicate ((119 - L % 64) % 64) 0 ++ beBytes 8 (8 * L)

/-- Split a list into 64-byte chunks (fuelled for kernel evaluation). -/
def chunks64Aux : Nat → List Nat → List (List Nat)
  | 0, _ => []
  | _, [] => []
  | fuel + 1, l => l.take 64 :: chunks64Aux fuel (l.drop 64)

def chunks64 (l : List Nat) : List (List Nat) := chunks64Aux l.length l

/-- The 16 big-endian 32-bit words of one 64-byte chunk. -/
def chunkWords (chunk : List Nat) : List Nat :=
  (List.range 16).map (fun i =>
    chunk.getD (4 * i) 0 * 2 ^ 24 + chunk.getD (4 * i + 1) 0 * 2 ^ 16 +
      chunk.getD (4 * i + 2) 0 * 2 ^ 8 + chunk.getD (4 * i + 3) 0)

/-- Extend the 16-word schedule to 64 words. -/
def extendSchedule : Nat → Array Nat → Array Nat
  | 0, w => w
  | fuel + 1, w =>
      let i := w.size
      let v := (w.getD (i - 16) 0 + sigma0 (w.getD (i - 15) 0) + w.getD (i - 7) 0 +
        sigma1 (w.getD (i - 2) 0)) % wordMask
      extendSchedule fuel (w.push v)

/-- One SHA-256 round on the 8-word working state. -/
def shaRound (st : List Nat) (kw : Nat × Nat) : List Nat :=
  match st with
  | [a, b, c, d, e, f, g, h] =>
      let t1 := (h + bigSigma1 e + shaCh e f g + kw.1 + kw.2) % wordMask
      let t2 := (bigSigma0 a + shaMaj a b c) % wordMask
      [(t1 + t2) % wordMask, a, b, c, (d + t1) % wordMask, e, f, g]
  | other => other

/-- Process one 64-byte chunk into the running hash state. -/
def shaChunk (h : List Nat) (chunk : List Nat) : List Nat :=
  let w := extendSchedule 48 (chunkWords chunk).toArray
  let st := (shaK.zip w.toList).foldl shaRound h
  (h.zip st).map (fun p => (p.1 + p.2) % wordMask)

/-- SHA-256 of a byte list, as a 256-bit number. -/
def sha256 (msg : List Nat) : Fin (2 ^ 256) :=
  let h := ((chunks64 (sha256Pad msg)).foldl shaChunk shaH0).foldl
    (fun acc w => acc * wordMask + w) 0
  ⟨h % 2 ^ 256, Nat.mod_lt h (by norm_num)⟩

/-- The 32 big-endian bytes of a digest. -/
def digestBytes (d : Fin (2 ^ 256)) : List Nat := beBytes 32 d.val

/-- HMAC-SHA256 (RFC 2104) of a message under a key, both byte lists. -/
def hmacSha256 (key msg : List Nat) : Fin (2 ^ 256) :=
  let k1 := if 64 < key.length then digestBytes (sha256 key) else key
  let k0 := k1 ++ List.replicate (64 - k1.length) 0
  let inner := sha256 ((k0.map (fun b => b ^^^ 0x36)) ++ msg)
  sha256 ((k0.map (fun b => b ^^^ 0x5c)) ++ digestBytes inner)

def hexDigitChar (n : Nat) : Char :=
  if n < 10 then Char.ofNat (48 + n) else Char.ofNat (87 + n)

/-- Lowercase hex rendering of a 256-bit digest. -/
def digestHex (d : Fin (2 ^ 256)) : String :=
  String.mk ((digestBytes d).flatMap (fun b => [hexDigitChar (b / 16), hexDigitChar (b % 16)]))

/-- Byte list of an ASCII string (code points; agrees with UTF-8 on ASCII). -/
def strBytes (s : String) : List Nat := s.data.map Char.toNat

/-- Modelled from the spec: the canonical query string the signer signs, the
ordered parameters serialized as key=value pairs joined with ampersands. -/
def canonicalQuery : List (String × String) → String
  | [] => ""
  | [kv] => kv.1 ++ "=" ++ kv.2
  | kv :: kv2 :: rest => kv.1 ++ "=" ++ kv.2 ++ "&" ++ canonicalQuery (kv2 :: rest)

/-- Modelled from the spec: the BinanceKey credential pair of utils/sign.rs
(absent from the source tree), an API key and a secret key. -/
structure BinanceKey where
  api_key : String
  secret_key : String

/-- Modelled from the spec: BinanceKey::sign serializes the ordered
parameters (with the timestamp and receive window already appended to the
parameter list by the caller) into the canonical query string and computes
its HMAC-SHA256 under the secret key, rendered as lowercase hex. -/
def BinanceKey.sign (key : BinanceKey) (params : List (String × String)) : String :=
  digestHex (hmacSha256 (strBytes key.secret_key) (strBytes (canonicalQuery params)))

/-- A per-item outcome, as the spec's ExecutionResult records it. -/
inductive ItemOutcome where
  | success : ItemOutcome
  | failure : ItemOutcome
deriving Repr, DecidableEq

/-- The per-item outcomes of one strategy execution, one entry per attempted
item, CEX leg first: the observable ExecutionResult list of the run. -/
def executionResults
    (r : (List (PlaceOrder × Except ExecError Unit) × Except ExecError Unit) ×
      (List (EisenSwap × List EisenStage × Except ExecError Nat) × Except ExecError Unit)) :
    List ItemOutcome :=
  r.1.1.map (fun p => match p.2 with | .ok _ => .success | .error _ => .failure) ++
    r.2.1.map (fun p => match p.2.2 with | .ok _ => .success | .error _ => .failure)

/-! ## Concrete fixtures used by the theorems -/

/-- A chain metadata table for chain 8453 with two tokens, as
get_chain_metadata stores it (symbols and addresses lowercased). -/
def chainDataBase : ChainData :=
  { id := 8453
    name := "base"
    sym_to_addr_n_decimals := [("eth", ("0xeth", 18)), ("usdc", ("0xusdc", 6))]
    addr_to_sym := [("0xeth", "eth"), ("0xusdc", "usdc")] }

/-- A sample routing graph returned by the quote oracle. -/
def aggSample : AggregateMergeSwapInfo :=
  { block_number := 1
    from_token := "0xeth"
    amount_in := "1000000000000000000"
    to_token := "0xusdc"
    weights := [10000]
    expected_amount_out := "4000000000" }

/-- Oracles under which every network stage succeeds. -/
def envAllOk : EisenEnv :=
  { chainId := 8453
    quoteOracle := fun _ => .ok { is_swap_path_exists := true, dex_agg := some aggSample }
    buildOracle := fun _ => .ok { toAddr := "0xrouter", value := 0, data := "0xcall" }
    sendOracle := fun _ => .ok 42 }

/-- Oracles whose quote stage reports that no swap path exists (the path
flag false and no routing graph). -/
def envNoPath : EisenEnv :=
  { envAllOk with
    quoteOracle := fun _ => .ok { is_swap_path_exists := false, dex_agg := none } }

/-- Oracles whose quote stage fails with a venue error. -/
def envQuoteRejects : EisenEnv :=
  { envAllOk with quoteOracle := fun _ => .error (.venue "quote HTTP 500") }

/-- Oracles whose quote stage reports back the base-unit amount it was sent
when that amount is zero: a probe showing an invalid amount reached the
venue. -/
def envZeroAmountProbe : EisenEnv :=
  { envAllOk with
    quoteOracle := fun req =>
      if req.amount = 0 then .error (.venue "venue received amount 0")
      else .ok { is_swap_path_exists := true, dex_agg := some aggSample } }

/-- A submission oracle accepting every order. -/
def submitAccept : PlaceOrder → Except ExecError Unit := fun _ => .ok ()

/-- A submission oracle rejecting every order (venue rejection). -/
def submitReject : PlaceOrder → Except ExecError Unit :=
  fun _ => .error (.venue "venue rejected order")

/-- A submission oracle reporting back when it is handed the non-positive
quantity -1: a probe showing an invalid quantity reached the venue. -/
def submitNegQtyProbe : PlaceOrder → Except ExecError Unit :=
  fun req =>
    if req.quantity = some ⟨-1, 0⟩ then .error (.venue "venue received quantity -1")
    else .ok ()

/-- Strategy with a single CEX sell order of 0.5 ETH and no price. -/
def strategyC1 : Json :=
  .obj [("exchanges", .arr [
    .obj [("binance", .obj [("orders", .arr [
      .obj [("token", .str "ETH"), ("side", .str "sell"), ("amount", .str "0.5")]])])]])]

/-- Strategy with two valid CEX orders. -/
def strategyTwoOrders : Json :=
  .obj [("exchanges", .arr [
    .obj [("binance", .obj [("orders", .arr [
      .obj [("token", .str "ETH"), ("side", .str "sell"), ("amount", .str "0.5")],
      .obj [("token", .str "BTC"), ("side", .str "buy"), ("amount", .str "0.1")]])])]])]

/-- Strategy with two valid DEX swaps. -/
def strategyTwoSwaps : Json :=
  .obj [("exchanges", .arr [
    .obj [("eisen", .obj [("swaps", .arr [
      .obj [("token_in", .str "ETH"), ("token_out", .str "USDC"), ("amount", .str "1.0")],
      .obj [("token_in", .str "USDC"), ("token_out", .str "ETH"), ("amount", .str "2.0")]])])]])]

/-- Strategy with one invalid CEX order (quantity -1) and two valid DEX
swaps. -/
def strategyLegs : Json :=
  .obj [("exchanges", .arr [
    .obj [("binance", .obj [("orders", .arr [
            .obj [("token", .str "ETH"), ("side", .str "sell"), ("amount", .str "-1")]])]),
          ("eisen", .obj [("swaps", .arr [
            .obj [("token_in", .str "ETH"), ("token_out", .str "USDC"), ("amount", .str "1.0")],
            .obj [("token_in", .str "USDC"), ("token_out", .str "ETH"), ("amount", .str "2.0")]])])]])]

/-- Strategy with a single CEX order whose quantity is the non-positive
string -1. -/
def strategyNegQty : Json :=
  .obj [("exchanges", .arr [
    .obj [("binance", .obj [("orders", .arr [
      .obj [("token", .str "ETH"), ("side", .str "sell"), ("amount", .str "-1")]])])]])]

/-- Strategy with a single DEX swap whose amount string is unparsable. -/
def strategyAbcAmount : Json :=
  .obj [("exchanges", .arr [
    .obj [("eisen", .obj [("swaps", .arr [
      .obj [("token_in", .str "ETH"), ("token_out", .str "USDC"), ("amount", .str "abc")]])])]])]

/-- Strategy with a single DEX swap of amount 0.1. -/
def strategyPointOne : Json :=
  .obj [("exchanges", .arr [
    .obj [("eisen", .obj [("swaps", .arr [
      .obj [("token_in", .str "ETH"), ("token_out", .str "USDC"), ("amount", .str "0.1")]])])]])]

/-- A concrete credential pair for the signer theorems. -/
def testKey : BinanceKey := { api_key := "api", secret_key := "secret" }

/-- The order extract_binance_place_order produces from strategyC1. -/
def orderC1 : PlaceOrder :=
  { symbol := "ETHUSDT"
    side := .sell
    position_side := none
    order_type := .market
    reduce_only := none
    quantity := some ⟨5, 1⟩
    price := none
    new_client_order_id := none
    stop_price := none
    close_position := none
    activation_price := none
    callback_rate := none
    time_in_force := none
    working_type := none
    price_protect := none }

/-- The request the processor then hands to place_binance_order for
strategyC1. -/
def reqC1 : PlaceOrder := placeBinanceOrderRequest "ETHUSDT" .sell (some ⟨5, 1⟩) none none

set_option maxRecDepth 10000

/-! ## Helper lemmas -/

theorem string_data_inj {a b : String} (h : a.data = b.data) : a = b := by
  cases a
  cases b
  exact congrArg String.mk (by simpa using h)

theorem string_append_cancel_left {a b c : String} (h : a ++ b = a ++ c) : b = c := by
  apply string_data_inj
  have hd := congrArg String.data h
  simp [String.data_append] at hd
  exact hd

theorem string_append_cancel_right {a b c : String} (h : a ++ c = b ++ c) : a = b := by
  apply string_data_inj
  have hd := congrArg String.data h
  simp [String.data_append] at hd
  exact hd

theorem canonicalQuery_cons (kv : String × String) (l : List (String × String))
    (h : l ≠ []) :
    canonicalQuery (kv :: l) = kv.1 ++ "=" ++ kv.2 ++ "&" ++ canonicalQuery l := by
  cases l with
  | nil => exact absurd rfl h
  | cons a as => rfl

/-- Changing one parameter value, everything else fixed, changes the
canonical query string. -/
theorem canonicalQuery_value_sensitive (pre post : List (String × String))
    (k v1 v2 : String) (hne : v1 ≠ v2) :
    canonicalQuery (pre ++ (k, v1) :: post) ≠ canonicalQuery (pre ++ (k, v2) :: post) := by
  induction pre with
  | nil =>
      intro h
      simp only [List.nil_append] at h
      cases post with
      | nil => exact hne (string_append_cancel_left (a := k ++ "=") h)
      | cons q qs =>
          rw [canonicalQuery_cons (k, v1) (q :: qs) (by simp),
            canonicalQuery_cons (k, v2) (q :: qs) (by simp)] at h
          exact hne (string_append_cancel_left
            (string_append_cancel_right (string_append_cancel_right h)))
  | cons q pre ih =>
      intro h
      rw [List.cons_append, List.cons_append,
        canonicalQuery_cons q (pre ++ (k, v1) :: post) (by simp),
        canonicalQuery_cons q (pre ++ (k, v2) :: post) (by simp)] at h
      exact ih (string_append_cancel_left h)

/-- Every order parsed from the strategy JSON carries stop_price none. -/
theorem parseBinanceOrderItem_stop_none (item : Json) (o : PlaceOrder)
    (h : parseBinanceOrderItem item = some o) : o.stop_price = none := by
  simp only [parseBinanceOrderItem] at h
  split at h
  · cases h
  · rw [Option.some.injEq] at h
    rw [← h]

/-- Every extracted order comes from parseBinanceOrderItem. -/
theorem extract_binance_mem (json : Json) (o : PlaceOrder)
    (h : o ∈ extract_binance_place_order json) :
    ∃ item, parseBinanceOrderItem item = some o := by
  rw [extract_binance_place_order] at h
  split at h
  · simp at h
  · rw [List.mem_flatMap] at h
    obtain ⟨ex, _, h2⟩ := h
    split at h2
    · simp at h2
    · split at h2
      · simp at h2
      · rw [List.mem_filterMap] at h2
        obtain ⟨item, _, hp⟩ := h2
        exact ⟨item, hp⟩

/-- Every request the processor loop submits is built with a stop price of
none. -/
theorem binanceLoop_request_shape (submit : PlaceOrder → Except ExecError Unit)
    (ps : List PlaceOrder) :
    ∀ r ∈ (binanceLoop submit ps).1,
      ∃ p : PlaceOrder,
        r.1 = placeBinanceOrderRequest p.symbol p.side p.quantity p.price none := by
  induction ps with
  | nil => intro r hr; simp [binanceLoop] at hr
  | cons p rest ih =>
      intro r hr
      rw [binanceLoop] at hr
      rcases hs : submit (placeBinanceOrderRequest p.symbol p.side p.quantity p.price none)
        with e | u
      · rw [hs] at hr
        simp at hr
        exact ⟨p, by rw [hr]⟩
      · rw [hs] at hr
        simp at hr
        rcases hr with h1 | h2
        · exact ⟨p, by rw [h1]⟩
        · exact ih r h2

/-! ## Claim theorems -/

/-- Claim C1: the spec says a strategy with a sell of 0.5 ETH and no price
produces exactly one Market sell order with venue symbol exactly ETHUSDT (the
USDT suffix appended once) and the quantity truncated to venue precision.
The code submits exactly one Market sell order with quantity 0.5, but its
symbol is ETHUSDTUSDT: the parser already appends USDT and place_binance_order
appends it again, and no precision truncation exists anywhere on the path. -/
theorem C1_submitted_order_symbol_and_kind :
    (extract_binance_place_order strategyC1).map (fun o => o.symbol) = ["ETHUSDT"] ∧
    (process_binance_place_order submitAccept strategyC1).1 = [(reqC1, .ok ())] ∧
    reqC1.order_type = .market ∧ reqC1.side = .sell ∧
    reqC1.quantity = some ⟨5, 1⟩ ∧
    reqC1.symbol = "ETHUSDTUSDT" ∧ reqC1.symbol ≠ "ETHUSDT" := by decide

/-- Claim C2: the spec says execution within one leg is isolate-per-item:
after one item fails, the remaining items of the same leg are still
attempted, each with its own ExecutionResult.  The code instead propagates
the first failure with the ? operator in both processor loops: with two
orders (resp. two swaps) extracted and every submission failing, only one
item of the leg is attempted and the leg aborts with that error. -/
theorem C2_first_failure_aborts_remaining_items :
    (extract_binance_place_order strategyTwoOrders).length = 2 ∧
    (process_binance_place_order submitReject strategyTwoOrders).1.length = 1 ∧
    (process_binance_place_order submitReject strategyTwoOrders).2 =
      .error (.venue "venue rejected order") ∧
    (extract_eisen_swaps strategyTwoSwaps).length = 2 ∧
    (process_eisen_swaps envQuoteRejects chainDataBase "0xwallet" strategyTwoSwaps).1.length = 1 ∧
    (process_eisen_swaps envQuoteRejects chainDataBase "0xwallet" strategyTwoSwaps).2 =
      .error (.venue "quote HTTP 500") := by decide

/-- Claim C3: the spec says that when the quote stage reports that no swap
path exists, the build and broadcast stages are never invoked and the swap
ends as Failure(InvalidInput) rather than a crash.  In the code the build
and broadcast stages are indeed never invoked (the stage trace stops at the
quote), but quote_and_send_tx unwraps the absent routing graph and panics
instead of producing an InvalidInput failure. -/
theorem C3_no_path_quote_only_then_panic :
    (process_eisen_swaps envNoPath chainDataBase "0xwallet" strategyPointOne).1 =
      [(⟨"ETH", "USDC", ⟨7205759403792794, -56⟩⟩, [.quoteStage],
        .error (.panicked "Option unwrap on None"))] ∧
    (∀ m : String,
      (Except.error (ExecError.panicked "Option unwrap on None") : Except ExecError Nat) ≠
        .error (.invalidInput m)) := by
  refine ⟨by decide, ?_⟩
  intro m h
  simp at h

/-- Claim C4: the spec says orders with non-positive or unparsable quantity
and swaps with non-positive or unresolvable amounts are rejected locally
before any network call.  The code performs no such validation: an order
with quantity -1 is extracted and its submission reaches the venue carrying
that quantity (the probing submission oracle observes it), and a swap with
the unparsable amount string abc is extracted with amount 0.0 and the quote
network call is made carrying base-unit amount 0 (the probing quote oracle
observes it). -/
theorem C4_invalid_quantity_and_amount_reach_venue :
    (extract_binance_place_order strategyNegQty).map (fun o => o.quantity) =
      [some ⟨-1, 0⟩] ∧
    (process_binance_place_order submitNegQtyProbe strategyNegQty).2 =
      .error (.venue "venue received quantity -1") ∧
    (extract_eisen_swaps strategyAbcAmount).map (fun s => s.amount) = [F64.zero] ∧
    (process_eisen_swaps envZeroAmountProbe chainDataBase "0xwallet" strategyAbcAmount).2 =
      .error (.venue "venue received amount 0") := by decide

/-- Claim C5: the spec says every money-bearing field is an exact fixed-point
decimal and never an IEEE binary float.  The swap amount is an f64 from the
parser on: the swap amount 0.1 is stored as the binary64 value
7205759403792794 * 2 ^ -56, which is not the decimal 1/10. -/
theorem C5_swap_amount_stored_as_binary64 :
    (extract_eisen_swaps strategyPointOne).map (fun s => s.amount) =
      [⟨7205759403792794, -56⟩] ∧
    F64.toRat ⟨7205759403792794, -56⟩ ≠ (1 : ℚ) / 10 := by
  refine ⟨by decide, ?_⟩
  intro h
  rw [F64.toRat] at h
  norm_num at h

/-- Claim C6: order-kind selection is a pure function of the optional price
fields: a present limit price gives Limit with time-in-force GTC and
close_position false; otherwise a present stop price gives Stop-Market with
close_position true and no time-in-force; otherwise Market with
close_position false. -/
theorem C6_order_kind_selection_pure (symbol : String) (side : OrderSide)
    (quantity price stop_price : Option Decimal) :
    (price.isSome = true →
      (placeBinanceOrderRequest symbol side quantity price stop_price).order_type = .limit ∧
      (placeBinanceOrderRequest symbol side quantity price stop_price).time_in_force =
        some .gtc ∧
      (placeBinanceOrderRequest symbol side quantity price stop_price).close_position =
        some false) ∧
    (price = none → stop_price.isSome = true →
      (placeBinanceOrderRequest symbol side quantity price stop_price).order_type =
        .stopMarket ∧
      (placeBinanceOrderRequest symbol side quantity price stop_price).time_in_force = none ∧
      (placeBinanceOrderRequest symbol side quantity price stop_price).close_position =
        some true) ∧
    (price = none → stop_price = none →
      (placeBinanceOrderRequest symbol side quantity price stop_price).order_type = .market ∧
      (placeBinanceOrderRequest symbol side quantity price stop_price).time_in_force = none ∧
      (placeBinanceOrderRequest symbol side quantity price stop_price).close_position =
        some false) := by
  cases price <;> cases stop_price <;>
    simp [placeBinanceOrderRequest, orderKindSelection]

/-- Witness for C6: the three branches at concrete inputs. -/
theorem C6_order_kind_selection_pure_witness :
    ((placeBinanceOrderRequest "eth" .buy (some ⟨5, 1⟩) (some ⟨100, 0⟩) none).order_type =
        .limit ∧
      (placeBinanceOrderRequest "eth" .buy (some ⟨5, 1⟩) (some ⟨100, 0⟩) none).time_in_force =
        some .gtc ∧
      (placeBinanceOrderRequest "eth" .buy (some ⟨5, 1⟩) (some ⟨100, 0⟩) none).close_position =
        some false) ∧
    ((placeBinanceOrderRequest "eth" .sell none none (some ⟨99, 0⟩)).order_type =
        .stopMarket ∧
      (placeBinanceOrderRequest "eth" .sell none none (some ⟨99, 0⟩)).time_in_force = none ∧
      (placeBinanceOrderRequest "eth" .sell none none (some ⟨99, 0⟩)).close_position =
        some true) ∧
    ((placeBinanceOrderRequest "eth" .sell (some ⟨5, 1⟩) none none).order_type = .market ∧
      (placeBinanceOrderRequest "eth" .sell (some ⟨5, 1⟩) none none).time_in_force = none ∧
      (placeBinanceOrderRequest "eth" .sell (some ⟨5, 1⟩) none none).close_position =
        some false) :=
  ⟨(C6_order_kind_selection_pure "eth" .buy (some ⟨5, 1⟩) (some ⟨100, 0⟩) none).1 rfl,
   (C6_order_kind_selection_pure "eth" .sell none none (some ⟨99, 0⟩)).2.1 rfl rfl,
   (C6_order_kind_selection_pure "eth" .sell (some ⟨5, 1⟩) none none).2.2 rfl rfl⟩

/-- Claim C7: the CEX and DEX legs are independent: the DEX leg result never
depends on the CEX submission oracle and conversely, and the scenario of one
invalid CEX order (quantity -1, rejected by the venue) together with two
valid DEX swaps yields exactly 3 per-item outcomes: the order a Failure and
both swaps Successes. -/
theorem C7_leg_independence_and_three_results :
    (∀ (s1 s2 : PlaceOrder → Except ExecError Unit) (env : EisenEnv) (cd : ChainData)
      (w : String) (j : Json),
      (execute_strategy s1 env cd w j).2 = (execute_strategy s2 env cd w j).2) ∧
    (∀ (s : PlaceOrder → Except ExecError Unit) (e1 e2 : EisenEnv) (cd1 cd2 : ChainData)
      (w1 w2 : String) (j : Json),
      (execute_strategy s e1 cd1 w1 j).1 = (execute_strategy s e2 cd2 w2 j).1) ∧
    (executionResults
        (execute_strategy submitReject envAllOk chainDataBase "0xwallet" strategyLegs)).length =
      3 ∧
    executionResults
        (execute_strategy submitReject envAllOk chainDataBase "0xwallet" strategyLegs) =
      [.failure, .success, .success] := by
  refine ⟨fun _ _ _ _ _ _ => rfl, fun _ _ _ _ _ _ _ _ => rfl, by decide, by decide⟩

/-- Counterexample to claim C8: the claim says stage 1 converts amount a with
d token-in decimals to exactly floor(a * 10 ^ d) for every a and d.  For the
amount string 1.15 with 2 decimals the code computes 114 in binary64
arithmetic, while floor(1.15 * 10 ^ 2) = 115. -/
theorem C8_conversion_not_exact_floor_counterexample :
    (parseF64 "1.15").map (fun a => f64ToBaseUnits a 2) = some 114 ∧
    ⌊(115 : ℚ) / 100 * 10 ^ 2⌋ = 115 ∧ (114 : Int) ≠ 115 := by
  refine ⟨by decide, ?_, by decide⟩
  have h : (115 : ℚ) / 100 * 10 ^ 2 = (115 : ℚ) := by norm_num
  rw [h]
  exact_mod_cast Int.floor_intCast 115

/-- Claim C8 as amended: stage 1 converts the parsed binary64 amount by a
binary64 multiplication with 10 ^ d followed by floor; for the spec scenario
(amount 1.1, 6 decimals) this yields exactly 1100000 = floor(1.1 * 10 ^ 6),
but not floor(a * 10 ^ d) for every amount (1.15 with 2 decimals yields
114). -/
theorem C8_conversion_double_rounding :
    (parseF64 "1.1").map (fun a => f64ToBaseUnits a 6) = some 1100000 ∧
    ⌊(11 : ℚ) / 10 * 10 ^ 6⌋ = 1100000 ∧
    (parseF64 "1.15").map (fun a => f64ToBaseUnits a 2) = some 114 := by
  refine ⟨by decide, ?_, by decide⟩
  have h : (11 : ℚ) / 10 * 10 ^ 6 = (1100000 : ℚ) := by norm_num
  rw [h]
  exact_mod_cast Int.floor_intCast 1100000

/-- Counterexample to claim C9: the claim says changing any parameter value
changes the HMAC-SHA256 signature; but the signature has only 2 ^ 256 values
while parameter sets are unbounded, so two distinct parameter sets with the
same signature exist (pigeonhole). -/
theorem C9_sign_not_injective_counterexample :
    ∃ p1 p2 : List (String × String),
      p1 ≠ p2 ∧ BinanceKey.sign testKey p1 = BinanceKey.sign testKey p2 := by
  obtain ⟨x, y, hxy, hf⟩ := Finite.exists_ne_map_eq_of_infinite
    (fun n : ℕ => hmacSha256 (strBytes testKey.secret_key)
      (strBytes (canonicalQuery [("symbol", String.mk (List.replicate n 'A'))])))
  refine ⟨[("symbol", String.mk (List.replicate x 'A'))],
    [("symbol", String.mk (List.replicate y 'A'))], ?_, ?_⟩
  · intro h
    apply hxy
    simp only [List.cons.injEq, Prod.mk.injEq, true_and, and_true] at h
    simpa using congrArg List.length (congrArg String.data h)
  · rw [BinanceKey.sign, BinanceKey.sign]
    exact congrArg digestHex hf

/-- Claim C9 as amended: signing is deterministic, a pure function of the
secret key and the ordered parameter list alone, and changing any single
parameter value changes the canonical query string that is signed (the
signature itself can only coincide through an HMAC-SHA256 collision). -/
theorem C9_sign_deterministic_and_canonical_sensitive :
    (∀ (k1 k2 : BinanceKey) (p1 p2 : List (String × String)),
      k1.secret_key = k2.secret_key → p1 = p2 →
        BinanceKey.sign k1 p1 = BinanceKey.sign k2 p2) ∧
    (∀ (pre post : List (String × String)) (k v1 v2 : String),
      v1 ≠ v2 →
        canonicalQuery (pre ++ (k, v1) :: post) ≠
          canonicalQuery (pre ++ (k, v2) :: post)) := by
  constructor
  · intro k1 k2 p1 p2 hk hp
    rw [BinanceKey.sign, BinanceKey.sign, hk, hp]
  · exact canonicalQuery_value_sensitive

/-- Witness for the amended C9 at concrete parameter lists. -/
theorem C9_sign_deterministic_witness :
    BinanceKey.sign testKey [("symbol", "ETHUSDT")] =
      BinanceKey.sign testKey [("symbol", "ETHUSDT")] ∧
    canonicalQuery [("symbol", "ETHUSDT")] ≠ canonicalQuery [("symbol", "BTCUSDT")] :=
  ⟨C9_sign_deterministic_and_canonical_sensitive.1 testKey testKey
      [("symbol", "ETHUSDT")] [("symbol", "ETHUSDT")] rfl rfl,
   C9_sign_deterministic_and_canonical_sensitive.2 [] [] "symbol" "ETHUSDT" "BTCUSDT"
      (by decide)⟩

/-- Claim C10: every order extracted from a strategy JSON carries stop price
None, every request the dispatcher loop submits carries stop price None and
close_position false, and its order type is Market or Limit, never
Stop-Market. -/
theorem C10_dispatched_orders_stop_price_none
    (submit : PlaceOrder → Except ExecError Unit) (json : Json) :
    (∀ o ∈ extract_binance_place_order json, o.stop_price = none) ∧
    (∀ r ∈ (process_binance_place_order submit json).1,
      r.1.stop_price = none ∧ r.1.close_position = some false ∧
      (r.1.order_type = .market ∨ r.1.order_type = .limit) ∧
      r.1.order_type ≠ .stopMarket) := by
  constructor
  · intro o ho
    obtain ⟨item, hp⟩ := extract_binance_mem json o ho
    exact parseBinanceOrderItem_stop_none item o hp
  · intro r hr
    obtain ⟨p, hp⟩ :=
      binanceLoop_request_shape submit (extract_binance_place_order json) r hr
    rw [hp]
    rw [placeBinanceOrderRequest, orderKindSelection]
    cases hq : p.price <;> simp

/-- Witness for C10 on the concrete strategyC1 run. -/
theorem C10_dispatched_orders_stop_price_none_witness :
    orderC1.stop_price = none ∧
    reqC1.stop_price = none ∧ reqC1.close_position = some false ∧
    (reqC1.order_type = .market ∨ reqC1.order_type = .limit) ∧
    reqC1.order_type ≠ .stopMarket :=
  ⟨(C10_dispatched_orders_stop_price_none submitAccept strategyC1).1 orderC1 (by decide),
   (C10_dispatched_orders_stop_price_none submitAccept strategyC1).2
      (reqC1, .ok ()) (by decide)⟩

end ChillPm
